import Mathlib

/-!
Verification development for the `dispatcharr_timeshift` plugin
(`hooks.py` and `views.py`).

The Python source is shallowly embedded: the read-only relational store
(channels, streams, accounts, users, memberships) becomes a `Db` record of
lists queried in store order; JSON property values become the `PVal` type;
fallible steps (exceptions) become `Option`/explicit error constructors of
`HttpResp`; the single outbound HTTP attempt of `_proxy_stream` is driven by
an `UpOutcome` describing what that attempt would return, and every handler
also reports how many outbound attempts it made.  Monkey-patch installation
(`install_hooks` / `uninstall_hooks`) is embedded as a state machine over the
module-level references that `hooks.py` mutates.
-/

set_option linter.unusedVariables false

namespace Timeshift

/-- JSON-ish property values stored in `custom_properties` bags. -/
inductive PVal where
  | pint (n : Int)
  | pstr (s : String)
deriving DecidableEq, Repr

/-- Python whitespace stripping (`str.strip()` with no argument). -/
def pyStrip (cs : List Char) : List Char :=
  ((cs.dropWhile Char.isWhitespace).reverse.dropWhile Char.isWhitespace).reverse

/-- Accumulator-style base-10 digit run; `none` when a non-digit appears. -/
def digitsToNat (acc : Nat) : List Char → Option Nat
  | [] => some acc
  | c :: rest =>
    if c.isDigit then digitsToNat (acc * 10 + (c.toNat - 48)) rest else none

/-- Python `int(s)` on a string: strip surrounding whitespace, optional
sign, base-10 digits; `none` models a raised `ValueError`.  (Python's digit
group separators, e.g. `1_0`, are not modelled.) -/
def strToInt (s : String) : Option Int :=
  match pyStrip s.toList with
  | [] => none
  | '+' :: rest =>
    if rest.isEmpty then none else (digitsToNat 0 rest).map Int.ofNat
  | '-' :: rest =>
    if rest.isEmpty then none
    else (digitsToNat 0 rest).map (fun n => -(Int.ofNat n))
  | cs => (digitsToNat 0 cs).map Int.ofNat

/-- Does `pat` occur as a leading segment of `cs`? -/
def startsWithChars (cs pat : List Char) : Bool :=
  match cs, pat with
  | _, [] => true
  | [], _ :: _ => false
  | c :: cs, p :: ps => c == p && startsWithChars cs ps

/-- Python `s.startswith(pat)`. -/
def pyStartsWith (s pat : String) : Bool :=
  startsWithChars s.toList pat.toList

/-- Python `s.endswith(pat)`. -/
def pyEndsWith (s pat : String) : Bool :=
  startsWithChars s.toList.reverse pat.toList.reverse

/-- Split a character list at every occurrence of `sep`. -/
def splitChar (sep : Char) : List Char → List (List Char)
  | [] => [[]]
  | c :: rest =>
    let r := splitChar sep rest
    if c == sep then [] :: r
    else
      match r with
      | [] => [[c]]
      | h :: t => (c :: h) :: t

/-- Fuel-indexed non-overlapping left-to-right replacement (`fuel` at least
the length of the subject makes it total). -/
def replaceFuel (fuel : Nat) (old new : List Char) (cs : List Char) :
    List Char :=
  match fuel with
  | 0 => cs
  | f + 1 =>
    match cs with
    | [] => []
    | c :: rest =>
      if !old.isEmpty && startsWithChars (c :: rest) old then
        new ++ replaceFuel f old new ((c :: rest).drop old.length)
      else c :: replaceFuel f old new rest

/-- Python `s.replace(old, new)` for non-empty `old` (the URL placeholders
substituted through it are never empty). -/
def pyReplace (s old new : String) : String :=
  String.mk (replaceFuel s.toList.length old.toList new.toList s.toList)

/-- Python `int(v)` on a JSON value: identity on ints, parse on strings. -/
def pvalToInt : PVal → Option Int
  | .pint n => some n
  | .pstr s => strToInt s

/-- Python truthiness of a JSON value (`0` and `""` are falsy). -/
def pvalTruthy : PVal → Bool
  | .pint n => n != 0
  | .pstr s => s != ""

/-- Python `str(v)` of an optional JSON value; `str(None) = "None"`. -/
def pyStrOfOpt : Option PVal → String
  | none => "None"
  | some (.pint n) => toString n
  | some (.pstr s) => s

/-- Python `s.rstrip('.ts')`: remove trailing characters drawn from the set
`{'.', 't', 's'}`. -/
def rstripDotTs (s : String) : String :=
  String.mk ((s.toList.reverse.dropWhile
    (fun c => c == '.' || c == 't' || c == 's')).reverse)

/-- Python `s.rstrip('/')`. -/
def rstripSlash (s : String) : String :=
  String.mk ((s.toList.reverse.dropWhile (fun c => c == '/')).reverse)

/-- Python `pathlib.Path(p).stem`: last path component (ignoring trailing
slashes), with the final suffix removed when the last dot sits strictly
inside the name. -/
def pathStem (p : String) : String :=
  let comps := (splitChar '/' p.toList).filter (fun c => !c.isEmpty)
  let cs := comps.getLastD []
  match ((List.range cs.length).filter (fun i => cs.getD i ' ' == '.')).getLast? with
  | none => String.mk cs
  | some i =>
    if 0 < i && i < cs.length - 1 then String.mk (cs.take i) else String.mk cs

/-- An upstream provider account (`M3UAccount` row). -/
structure M3UAccount where
  account_type : String
  server_url : String := ""
  username : String := ""
  password : String := ""
  user_agent : String := ""
deriving DecidableEq, Repr

/-- The `custom_properties` bag of a `Stream` row (the keys this plugin
reads). -/
structure StreamProps where
  stream_id : Option PVal := none
  tv_archive : Option PVal := none
  tv_archive_duration : Option PVal := none
deriving DecidableEq, Repr

/-- A `Stream` row.  `channel_ids` is the ordered related-channel set used by
`stream.channels.first()`. -/
structure Stream where
  id : Nat
  custom_properties : Option StreamProps := none
  m3u_account : Option M3UAccount := none
  channel_ids : List Int := []
deriving DecidableEq, Repr

/-- A `Channel` row.  `stream_ids` is ordered by `channelstream__order`, as
used by `channel.streams.order_by('channelstream__order').first()`. -/
structure Channel where
  id : Int
  name : String := ""
  user_level : Int := 0
  uuid : String := ""
  stream_ids : List Nat := []
deriving DecidableEq, Repr

/-- The `custom_properties` bag of a `User` row (the key this plugin reads). -/
structure UserProps where
  xc_password : Option String := none
deriving DecidableEq, Repr

/-- A `User` row.  `django_password` is the platform's primary credential,
which the plugin must never consult. -/
structure User where
  username : String
  django_password : String := ""
  user_level : Int := 0
  custom_properties : Option UserProps := none
  channel_profiles : List Nat := []
deriving DecidableEq, Repr

/-- A `ChannelProfileMembership` row. -/
structure Membership where
  channel_id : Int
  profile_id : Nat
  enabled : Bool
deriving DecidableEq, Repr

/-- The read-only relational store; list order is the store's query order
(`.first()` takes the head of the matching sublist). -/
structure Db where
  users : List User := []
  channels : List Channel := []
  streams : List Stream := []
  memberships : List Membership := []
deriving DecidableEq, Repr

/-- Outcome of reading `PluginConfig.objects.get(key=...).enabled`; `err`
models any raised exception (missing row, database error). -/
inductive ConfigRead where
  | ok (enabled : Bool)
  | err
deriving DecidableEq, Repr

/-- `hooks._is_plugin_enabled`: the flag when the read succeeds, `False`
on any exception (fail-closed). -/
def _is_plugin_enabled : ConfigRead → Bool
  | .ok b => b
  | .err => false

def userByName (db : Db) (username : String) : Option User :=
  db.users.find? (fun u => u.username == username)

def streamById (db : Db) (i : Nat) : Option Stream :=
  db.streams.find? (fun s => s.id == i)

def channelById (db : Db) (i : Int) : Option Channel :=
  db.channels.find? (fun c => c.id == i)

/-- Django filter `m3u_account__account_type='XC'` on a stream (a null
foreign key matches nothing). -/
def accountTypeIsXc (st : Stream) : Bool :=
  match st.m3u_account with
  | some a => a.account_type == "XC"
  | none => false

/-- Django query
`Stream.objects.filter(custom_properties__stream_id=s, m3u_account__account_type='XC').first()`:
first stream in store order whose JSON `stream_id` equals the string `s`. -/
def findXcStreamByProviderId (db : Db) (sid : String) : Option Stream :=
  db.streams.find? (fun st =>
    (st.custom_properties.bind (fun p => p.stream_id) == some (.pstr sid))
      && accountTypeIsXc st)

/-- `stream.channels.first()`: first existing related channel. -/
def firstChannelOf (db : Db) (st : Stream) : Option Channel :=
  (st.channel_ids.filterMap (channelById db)).head?

/-- `channel.streams.order_by('channelstream__order').first()`. -/
def firstOrderedStream (db : Db) (ch : Channel) : Option Stream :=
  (ch.stream_ids.filterMap (streamById db)).head?

/-- `views._authenticate_user`: look the user up by exact username, then
compare the supplied password against `custom_properties['xc_password']`.
Mirrors the Python truthiness test `if not xc_password` (absent or empty both
fail) followed by the inequality test. -/
def _authenticate_user (db : Db) (username password : String) : Option User :=
  match userByName db username with
  | none => none
  | some u =>
    match u.custom_properties.bind (fun p => p.xc_password) with
    | none => none
    | some xp => if xp == "" then none else if xp != password then none else some u

/-- `views._find_channel_by_provider_stream_id`: provider-id lookup returning
the stream's first associated channel together with the stream, or nothing. -/
def _find_channel_by_provider_stream_id (db : Db) (provider_stream_id : String) :
    Option (Channel × Stream) :=
  match findXcStreamByProviderId db provider_stream_id with
  | none => none
  | some st =>
    match firstChannelOf db st with
    | none => none
    | some ch => some (ch, st)

/-- Membership clause of the internal-id fallback filter:
`channelprofilemembership__enabled=True` with
`channelprofilemembership__channel_profile__in=user.channel_profiles`. -/
def hasEnabledMembership (db : Db) (u : User) (c : Channel) : Bool :=
  db.memberships.any (fun m =>
    m.channel_id == c.id && m.enabled && u.channel_profiles.contains m.profile_id)

/-- Internal-id fallback of `patched_stream_xc`: below the unrestricted
threshold 10 the lookup is filtered by access level (and, when the user has
channel profiles, by enabled profile membership); at level 10 and above it is
unfiltered. -/
def internalChannelLookup (db : Db) (u : User) (n : Int) : Option Channel :=
  if u.user_level < 10 then
    if u.channel_profiles.isEmpty then
      db.channels.find? (fun c => c.id == n && decide (c.user_level ≤ u.user_level))
    else
      db.channels.find? (fun c => c.id == n && decide (c.user_level ≤ u.user_level)
        && hasEnabledMembership db u c)
  else
    db.channels.find? (fun c => c.id == n)

/-- Channel resolution of `patched_stream_xc`: provider-native id first
(first matching XC stream, then its first channel); only when that produces
no channel, parse the input as a base-10 integer and fall back to the
internal-id lookup; a parse failure ends resolution. -/
def resolveChannel (db : Db) (u : User) (cid : String) : Option Channel :=
  match (findXcStreamByProviderId db cid).bind (firstChannelOf db) with
  | some ch => some ch
  | none =>
    match strToInt cid with
    | some n => internalChannelLookup db u n
    | none => none

/-- A parsed `YYYY-MM-DD:HH-MM` timestamp. -/
structure DateTime where
  y : Nat
  m : Nat
  d : Nat
  hh : Nat
  mm : Nat
deriving DecidableEq, Repr

def digitVal (c : Char) : Option Nat :=
  if c.isDigit then some (c.toNat - 48) else none

def expectChar (c : Char) : List Char → Option (List Char)
  | x :: rest => if x == c then some rest else none
  | [] => none

/-- `strptime` field `%Y`: exactly four digits. -/
def parseYear4 : List Char → Option (Nat × List Char)
  | a :: b :: c :: d :: rest => do
    let x ← digitVal a
    let y ← digitVal b
    let z ← digitVal c
    let w ← digitVal d
    pure (((x * 10 + y) * 10 + z) * 10 + w, rest)
  | _ => none

/-- A one-or-two digit `strptime` field: take two digits when they form a
value the field's pattern accepts (`lo2 ≤ v ≤ hi2`), otherwise one digit with
`lo1 ≤ v ≤ hi1`.  The separators that follow each field are never digits, so
this greedy choice coincides with the regexes `_strptime` builds. -/
def parseNum2or1 (lo2 hi2 lo1 hi1 : Nat) : List Char → Option (Nat × List Char)
  | c1 :: c2 :: rest =>
    match digitVal c1, digitVal c2 with
    | some a, some b =>
      let v := a * 10 + b
      if lo2 ≤ v && v ≤ hi2 then some (v, rest)
      else if lo1 ≤ a && a ≤ hi1 then some (a, c2 :: rest) else none
    | some a, none => if lo1 ≤ a && a ≤ hi1 then some (a, c2 :: rest) else none
    | none, _ => none
  | [c1] =>
    match digitVal c1 with
    | some a => if lo1 ≤ a && a ≤ hi1 then some (a, []) else none
    | none => none
  | [] => none

def isLeapYear (y : Nat) : Bool :=
  (y % 4 == 0 && y % 100 != 0) || (y % 400 == 0)

def daysInMonth (y m : Nat) : Nat :=
  if m == 2 then (if isLeapYear y then 29 else 28)
  else if m == 4 || m == 6 || m == 9 || m == 11 then 30
  else 31

/-- `datetime.strptime(s, "%Y-%m-%d:%H-%M")` followed by the `datetime`
constructor's range validation; `none` models a raised `ValueError`. -/
def parseTimestamp (s : String) : Option DateTime := do
  let cs := s.toList
  let (y, r1) ← parseYear4 cs
  let r2 ← expectChar '-' r1
  let (m, r3) ← parseNum2or1 1 12 1 9 r2
  let r4 ← expectChar '-' r3
  let (d, r5) ← parseNum2or1 1 31 1 9 r4
  let r6 ← expectChar ':' r5
  let (hh, r7) ← parseNum2or1 0 23 0 9 r6
  let r8 ← expectChar '-' r7
  let (mm, r9) ← parseNum2or1 0 59 0 9 r8
  if r9.isEmpty && 1 ≤ y && d ≤ daysInMonth y m then
    some ⟨y, m, d, hh, mm⟩
  else none

/-- Days from 0001-01-01 to the start of year `y` (proleptic Gregorian). -/
def daysBeforeYear (y : Nat) : Nat :=
  let n := y - 1
  n * 365 + n / 4 - n / 100 + n / 400

/-- Days from the start of year `y` to the start of month `m`. -/
def daysBeforeMonth (y m : Nat) : Nat :=
  (List.range (m - 1)).foldl (fun acc i => acc + daysInMonth y (i + 1)) 0

/-- Minutes elapsed since 0001-01-01 00:00. -/
def minutesOfDateTime (dt : DateTime) : Nat :=
  ((daysBeforeYear dt.y + daysBeforeMonth dt.y dt.m + (dt.d - 1)) * 24 + dt.hh) * 60
    + dt.mm

def yearLength (y : Nat) : Nat := if isLeapYear y then 366 else 365

def findYear (fuel y days : Nat) : Option (Nat × Nat) :=
  match fuel with
  | 0 => none
  | f + 1 =>
    if days < yearLength y then some (y, days)
    else findYear f (y + 1) (days - yearLength y)

def findMonth (fuel m : Nat) (y doy : Nat) : Nat × Nat :=
  match fuel with
  | 0 => (m, doy)
  | f + 1 =>
    if doy < daysInMonth y m then (m, doy)
    else findMonth f (m + 1) y (doy - daysInMonth y m)

/-- Minutes since 0001-01-01 00:00 back to a civil date-time; `none` models
the `OverflowError` raised outside `datetime`'s year range 1..9999. -/
def dateTimeOfMinutes (t : Int) : Option DateTime :=
  if t < 0 then none
  else
    let total := t.toNat
    let days := total / 1440
    let rem := total % 1440
    match findYear 10000 1 days with
    | none => none
    | some (y, doy) =>
      if 9999 < y then none
      else
        let (m, dom) := findMonth 12 1 y doy
        some ⟨y, m, dom + 1, rem / 60, rem % 60⟩

def pad2 (n : Nat) : String :=
  if n < 10 then "0" ++ toString n else toString n

def pad4 (n : Nat) : String :=
  if n < 10 then "000" ++ toString n
  else if n < 100 then "00" ++ toString n
  else if n < 1000 then "0" ++ toString n
  else toString n

/-- `strftime("%Y-%m-%d:%H-%M")`. -/
def formatTimestamp (dt : DateTime) : String :=
  pad4 dt.y ++ "-" ++ pad2 dt.m ++ "-" ++ pad2 dt.d ++ ":" ++ pad2 dt.hh ++ "-"
    ++ pad2 dt.mm

/-- The time-zone database: an IANA name resolves to its UTC-offset function
(in minutes, possibly varying with the instant, e.g. under DST), or to
nothing when `ZoneInfo(name)` raises. -/
def TzDb : Type := String → Option (Int → Int)

/-- `views._convert_timestamp_to_local`: parse the timestamp as UTC, shift it
into the configured zone, re-render it; on any parse/zone/range error return
the input unchanged. -/
def _convert_timestamp_to_local (tzdb : TzDb) (timestamp timezone_str : String) :
    String :=
  match parseTimestamp timestamp with
  | none => timestamp
  | some dt =>
    match tzdb timezone_str with
    | none => timestamp
    | some offsetAt =>
      let total : Int := Int.ofNat (minutesOfDateTime dt)
      let localMin : Int := total + offsetAt total
      match dateTimeOfMinutes localMin with
      | none => timestamp
      | some ldt => formatTimestamp ldt

/-- What the single outbound `requests.get` of `_proxy_stream` would return:
a response (status, optional `Content-Type`, `Content-Length`,
`Content-Range`, `Accept-Ranges` headers, optional readable body text), or a
raised `Timeout` / `ConnectionError` / other `RequestException`. -/
inductive UpOutcome where
  | success (status : Nat) (contentType contentLength contentRange acceptRanges
      bodyText : Option String)
  | timeout
  | connError (msg : String)
  | reqError (msg : String)
deriving DecidableEq, Repr

/-- HTTP responses (and unhandled exceptions) a handler can produce.
`importError` models an uncaught `ImportError` escaping the handler;
`streamTs` models delegation to the host's UUID-keyed `stream_ts`;
`delegatedOriginal` models a call into the saved original function. -/
inductive HttpResp where
  | forbidden (body : String)
  | notFound404
  | badRequest (body : String)
  | streaming (status : Nat) (contentType : String)
      (headers : List (String × String))
  | importError (name : String)
  | jsonError (status : Nat) (body : String)
  | streamTs (uuid : String)
  | delegatedOriginal
deriving DecidableEq, Repr

/-- Headers copied from the upstream response onto the streaming response
(`Content-Length`, `Content-Range`, `Accept-Ranges`, when present). -/
def copiedHeaders (cl cr ar : Option String) : List (String × String) :=
  (match cl with | some v => [("Content-Length", v)] | none => [])
    ++ (match cr with | some v => [("Content-Range", v)] | none => [])
    ++ (match ar with | some v => [("Accept-Ranges", v)] | none => [])

/-- `views._proxy_stream`: issue the one outbound GET (second component
counts outbound attempts), accept only upstream 200/206, convert any other
status and any timeout/connection error into `BadRequest`. -/
def _proxy_stream (up : UpOutcome) (rangeHeader : Option String)
    (url userAgent : String) : HttpResp × Nat :=
  match up with
  | .timeout => (.badRequest ("Provider timeout"), 1)
  | .connError _ => (.badRequest ("Provider connection error"), 1)
  | .reqError _ => (.badRequest ("Provider connection error"), 1)
  | .success status ct cl cr ar _ =>
    if status != 200 && status != 206 then
      (.badRequest ("Provider error: " ++ toString status), 1)
    else
      (.streaming status (ct.getD ("video/mp2t")) (copiedHeaders cl cr ar), 1)

/-- Plugin configuration rows read per request (spec §6): target time zone
and the catchup URL template. -/
structure PluginCfg where
  timezone : String := "Europe/Brussels"
  catchup_url_template : String := ""
deriving DecidableEq, Repr

/-- Step 7 of `timeshift_proxy`: substitute the placeholder tokens in the
configured template by literal text replacement, in the insertion order of
the `placeholders` dict. -/
def buildTimeshiftUrl (template : String) (acct : M3UAccount)
    (props : StreamProps) (localTs : String) : String :=
  let pairs := [("server.url", rstripSlash acct.server_url),
                ("XC.username", acct.username),
                ("XC.password", acct.password),
                ("stream_id", pyStrOfOpt props.stream_id),
                ("program.starttime", localTs),
                ("program.duration", "120")]
  pairs.foldl (fun u kv => pyReplace u ("\x7b" ++ kv.1 ++ "\x7d") kv.2) template

/-- Names bound at module level of `hooks.py` as it stands in the
repository's source: its imports, logger, the four saved-original globals,
and its nine functions.  Neither `_has_catchup_support` nor
`_get_plugin_config` is among them, although `views.py` imports both. -/
def hooksModuleNames : List String :=
  ["re", "logging", "logger",
   "_original_xc_get_live_streams", "_original_stream_xc",
   "_original_url_callbacks", "_original_resolve",
   "_is_plugin_enabled", "install_hooks", "uninstall_hooks",
   "_patch_xc_get_live_streams", "_restore_xc_get_live_streams",
   "_patch_stream_xc", "_restore_stream_xc",
   "_patch_url_resolver", "_restore_url_resolver"]

/-- Python `from .hooks import name`: succeeds exactly when `name` is bound
at module level of `hooks.py`, otherwise raises `ImportError`. -/
def importFromHooks (name : String) : Except String Unit :=
  if hooksModuleNames.contains name then .ok () else .error name

/-- Modelled from the spec: `_has_catchup_support` is imported by `views.py`
from `hooks.py` but is not defined anywhere under `src/`.  The spec's feature
check "determines catchup support from a `tv_archive`-style flag (and/or a
non-zero duration value — same predicate used in the catalog decoration)",
and the call site unpacks a pair whose first component is the flag. -/
def _has_catchup_support (props : StreamProps) : Bool × Int :=
  let ta := (pvalToInt (props.tv_archive.getD (.pint 0))).getD 0
  let dur := (pvalToInt (props.tv_archive_duration.getD (.pint 0))).getD 0
  (ta != 0 || dur != 0, dur)

/-- `views.timeshift_proxy` exactly as the source stands: authenticate,
resolve the provider-native id (the `duration` URL segment with `.ts`
stripped), check the access level, and then execute
`from .hooks import _has_catchup_support` — which raises `ImportError`
because `hooks.py` does not define that name.  The branches following a
successful import mirror the remaining source lines (with the two helpers
that the source imports modelled from the spec) but are unreachable. -/
def timeshift_proxy (db : Db) (cfg : PluginCfg) (tzdb : TzDb) (up : UpOutcome)
    (rangeHeader : Option String)
    (username password stream_id timestamp duration : String) : HttpResp × Nat :=
  let provider_stream_id := rstripDotTs duration
  match _authenticate_user db username password with
  | none => (.forbidden ("Invalid credentials"), 0)
  | some user =>
    match _find_channel_by_provider_stream_id db provider_stream_id with
    | none => (.notFound404, 0)
    | some (channel, stream) =>
      if user.user_level < channel.user_level then (.forbidden ("Access denied"), 0)
      else
        match importFromHooks ("_has_catchup_support") with
        | .error n => (.importError n, 0)
        | .ok _ =>
          let props := stream.custom_properties.getD {}
          if (_has_catchup_support props).1 = false then
            (.badRequest ("Catchup/timeshift not supported for this channel"), 0)
          else
            match stream.m3u_account with
            | none => (.badRequest ("Channel not from Xtream Codes provider"), 0)
            | some acct =>
              if acct.account_type != "XC" then
                (.badRequest ("Channel not from Xtream Codes provider"), 0)
              else
                match importFromHooks ("_get_plugin_config") with
                | .error n => (.importError n, 0)
                | .ok _ =>
                  let local_timestamp :=
                    _convert_timestamp_to_local tzdb timestamp cfg.timezone
                  let url := buildTimeshiftUrl cfg.catchup_url_template acct props
                    local_timestamp
                  _proxy_stream up rangeHeader url acct.user_agent

/-- Modelled from the spec: the intended `timeshift_proxy` pipeline of
§4.3, i.e. the handler as written in `views.py` but with the two hook-module
helpers it imports (`_has_catchup_support`, `_get_plugin_config`) present —
they are repository code not included under `src/`. -/
def timeshift_proxy_full (db : Db) (cfg : PluginCfg) (tzdb : TzDb)
    (up : UpOutcome) (rangeHeader : Option String)
    (username password stream_id timestamp duration : String) : HttpResp × Nat :=
  let provider_stream_id := rstripDotTs duration
  match _authenticate_user db username password with
  | none => (.forbidden ("Invalid credentials"), 0)
  | some user =>
    match _find_channel_by_provider_stream_id db provider_stream_id with
    | none => (.notFound404, 0)
    | some (channel, stream) =>
      if user.user_level < channel.user_level then (.forbidden ("Access denied"), 0)
      else
        let props := stream.custom_properties.getD {}
        if (_has_catchup_support props).1 = false then
          (.badRequest ("Catchup/timeshift not supported for this channel"), 0)
        else
          match stream.m3u_account with
          | none => (.badRequest ("Channel not from Xtream Codes provider"), 0)
          | some acct =>
            if acct.account_type != "XC" then
              (.badRequest ("Channel not from Xtream Codes provider"), 0)
            else
              let local_timestamp :=
                _convert_timestamp_to_local tzdb timestamp cfg.timezone
              let url := buildTimeshiftUrl cfg.catchup_url_template acct props
                local_timestamp
              _proxy_stream up rangeHeader url acct.user_agent

/-- `hooks.patched_stream_xc`: when disabled, delegate to the saved original;
otherwise authenticate against `xc_password`, resolve the channel (provider
id first, internal id as fallback), apply the access-level check (denial is a
404 JSON response), and delegate to the host's UUID-keyed `stream_ts`. -/
def patched_stream_xc (db : Db) (cfg : ConfigRead)
    (username password channel_id : String) : HttpResp :=
  if _is_plugin_enabled cfg = false then .delegatedOriginal
  else
    match userByName db username with
    | none => .notFound404
    | some user =>
      let channel_id_str := pathStem channel_id
      match user.custom_properties.bind (fun p => p.xc_password) with
      | none => .jsonError 401 ("Invalid credentials")
      | some xp =>
        if xp != password then .jsonError 401 ("Invalid credentials")
        else
          match resolveChannel db user channel_id_str with
          | none => .jsonError 404 ("Not found")
          | some channel =>
            if user.user_level < channel.user_level then
              .jsonError 404 ("Not found")
            else
              .streamTs channel.uuid

/-- The named groups captured by `TIMESHIFT_PATTERN` (the `duration` group
captures the digits only; the literal `.ts` sits outside the group). -/
structure TsArgs where
  username : String
  password : String
  stream_id : String
  timestamp : String
  duration : String
deriving DecidableEq, Repr

def isTsTimestampChar (c : Char) : Bool :=
  c.isDigit || c == '-' || c == ':'

def allDigits1 (s : String) : Bool :=
  !s.isEmpty && s.toList.all Char.isDigit

/-- Matching of the anchored regex
`^/?timeshift/(?...username [^/]+)/(?...password [^/]+)/(?...stream_id \d+)/(?...timestamp [\d\-:]+)/(?...duration \d+)\.ts$`:
after an optional single leading slash the path must split on `/` into
exactly six segments with the per-segment character constraints. -/
def timeshiftMatch (path : String) : Option TsArgs :=
  let p := if pyStartsWith path ("/") then path.drop 1 else path
  match (splitChar '/' p.toList).map String.mk with
  | [seg0, u, pw, sid, ts, dEx] =>
    if seg0 == "timeshift" && !u.isEmpty && !pw.isEmpty && allDigits1 sid
        && !ts.isEmpty && ts.toList.all isTsTimestampChar
        && pyEndsWith dEx (".ts") && allDigits1 (dEx.dropRight 3) then
      some ⟨u, pw, sid, ts, dEx.dropRight 3⟩
    else none
  | _ => none

/-- Result of the patched `URLResolver.resolve`: either a `ResolverMatch`
routing to `timeshift_proxy` with the captured groups and `route=path`, or
whatever the original resolve returns. -/
inductive ResolveOutcome (R : Type) where
  | intercepted (args : TsArgs) (route : String)
  | passthrough (r : R)
deriving DecidableEq, Repr

/-- `hooks.patched_resolve`: intercept only when the plugin is enabled and
the path starts with `timeshift/` or `/timeshift/` and the anchored pattern
matches; in every other case call the original resolve on the same path. -/
def patched_resolve {R : Type} (origResolve : String → R) (cfg : ConfigRead)
    (path : String) : ResolveOutcome R :=
  if _is_plugin_enabled cfg
      && (pyStartsWith path ("/timeshift/") || pyStartsWith path ("timeshift/")) then
    match timeshiftMatch path with
    | some args => .intercepted args path
    | none => .passthrough (origResolve path)
  else .passthrough (origResolve path)

/-- A catalog entry returned by `xc_get_live_streams`: a mapping with at
least `stream_id`; `none` in the two archive fields means the key is absent
from the mapping. -/
structure StreamEntry where
  stream_id : Int
  name : String := ""
  tv_archive : Option Int := none
  tv_archive_duration : Option Int := none
deriving DecidableEq, Repr

/-- Per-entry decoration of `patched_xc_get_live_streams`.  Failures mirror
the Python control flow: a missing channel or first stream leaves the entry
via `continue`; a raised `int(...)` is caught by the per-entry `except`,
keeping every assignment already executed before the raise. -/
def decorateEntry (db : Db) (e : StreamEntry) : StreamEntry :=
  match channelById db e.stream_id with
  | none => e
  | some ch =>
    match firstOrderedStream db ch with
    | none => e
    | some st =>
      let props := st.custom_properties.getD {}
      match pvalToInt (props.tv_archive.getD (.pint 0)) with
      | none => e
      | some ta =>
        let e1 := { e with tv_archive := some ta }
        match pvalToInt (props.tv_archive_duration.getD (.pint 0)) with
        | none => e1
        | some tad =>
          let e2 := { e1 with tv_archive_duration := some tad }
          match props.stream_id with
          | none => e2
          | some pv =>
            if pvalTruthy pv then
              match pvalToInt pv with
              | none => e2
              | some psid => { e2 with stream_id := psid }
            else e2

/-- `hooks.patched_xc_get_live_streams` applied to the sequence the original
function returned: identity when the plugin is disabled, otherwise in-place
decoration of every entry. -/
def patched_xc_get_live_streams (db : Db) (cfg : ConfigRead)
    (entries : List StreamEntry) : List StreamEntry :=
  if _is_plugin_enabled cfg then entries.map (decorateEntry db) else entries

/-- Symbolic function values for the patching state machine: the three host
originals and the three wrappers `hooks.py` creates.  Each wrapper reads the
corresponding `_original_*` module global at call time. -/
inductive Fn where
  | origXc
  | origStreamXc
  | origResolve
  | patchedXc
  | patchedStreamXc
  | patchedResolve
deriving DecidableEq, Repr

/-- The mutable references `hooks.py` touches: the two patched module
attributes, the URL-pattern callbacks, the resolver method, and the four
saved-original globals. -/
structure HooksState where
  output_xc : Fn
  proxy_stream_xc : Fn
  urlpatterns : List (Nat × Fn)
  resolver_resolve : Fn
  orig_xc : Option Fn
  orig_stream_xc : Option Fn
  orig_url_callbacks : List (Nat × Fn)
  orig_resolve : Option Fn
deriving DecidableEq, Repr

/-- Dict assignment `m[k] = v` (replace the binding or append it). -/
def upsert (m : List (Nat × Fn)) (k : Nat) (v : Fn) : List (Nat × Fn) :=
  match m with
  | [] => [(k, v)]
  | (k0, v0) :: rest =>
    if k0 == k then (k0, v) :: rest else (k0, v0) :: upsert rest k v

/-- `hooks._patch_xc_get_live_streams`: unconditionally save the current
module attribute into the global and replace it with the wrapper. -/
def _patch_xc_get_live_streams (s : HooksState) : HooksState :=
  { s with orig_xc := some s.output_xc, output_xc := .patchedXc }

/-- `hooks._patch_stream_xc`: unconditionally save the current module
attribute, replace it with the wrapper, and rewrite every URL-pattern
callback equal to the saved value (recording each in the callbacks dict). -/
def _patch_stream_xc (s : HooksState) : HooksState :=
  let orig := s.proxy_stream_xc
  { s with
    orig_stream_xc := some orig,
    proxy_stream_xc := .patchedStreamXc,
    urlpatterns := s.urlpatterns.map
      (fun p => if p.2 == orig then (p.1, Fn.patchedStreamXc) else p),
    orig_url_callbacks := s.urlpatterns.foldl
      (fun acc p => if p.2 == orig then upsert acc p.1 orig else acc)
      s.orig_url_callbacks }

/-- `hooks._patch_url_resolver`: a no-op when `_original_resolve` is already
set (the only patcher with an already-installed guard). -/
def _patch_url_resolver (s : HooksState) : HooksState :=
  match s.orig_resolve with
  | some _ => s
  | none =>
    { s with orig_resolve := some s.resolver_resolve,
             resolver_resolve := .patchedResolve }

/-- `hooks.install_hooks` (the boolean result is always `True` here since no
embedded step raises). -/
def install_hooks (s : HooksState) : HooksState :=
  _patch_url_resolver (_patch_stream_xc (_patch_xc_get_live_streams s))

def _restore_xc_get_live_streams (s : HooksState) : HooksState :=
  match s.orig_xc with
  | none => s
  | some f => { s with output_xc := f, orig_xc := none }

def _restore_stream_xc (s : HooksState) : HooksState :=
  match s.orig_stream_xc with
  | none => s
  | some f =>
    { s with
      proxy_stream_xc := f,
      urlpatterns := s.urlpatterns.map
        (fun p =>
          match s.orig_url_callbacks.lookup p.1 with
          | some h => (p.1, h)
          | none => p),
      orig_url_callbacks := [],
      orig_stream_xc := none }

def _restore_url_resolver (s : HooksState) : HooksState :=
  match s.orig_resolve with
  | none => s
  | some f => { s with resolver_resolve := f, orig_resolve := none }

def uninstall_hooks (s : HooksState) : HooksState :=
  _restore_url_resolver (_restore_stream_xc (_restore_xc_get_live_streams s))

/-- Delegation of a wrapper when it falls through to "the original": each
wrapper calls the `_original_*` module global as it stands at call time.
`some g` means the chain terminates at host function `g`; `none` means the
chain never reaches a host original within `fuel` calls (in Python: unbounded
recursion) or calls an unset (`None`) global. -/
def delegationChain (s : HooksState) (fuel : Nat) (f : Fn) : Option Fn :=
  match fuel with
  | 0 => none
  | fuel + 1 =>
    match f with
    | .patchedXc =>
      match s.orig_xc with
      | some g => delegationChain s fuel g
      | none => none
    | .patchedStreamXc =>
      match s.orig_stream_xc with
      | some g => delegationChain s fuel g
      | none => none
    | .patchedResolve =>
      match s.orig_resolve with
      | some g => delegationChain s fuel g
      | none => none
    | g => some g

/-- The database map `fun u => { u with django_password := f u.django_password }`
applied to every user: used to state that a function never consults the
primary credential. -/
def setDjangoPasswords (f : String → String) (db : Db) : Db :=
  { db with
    users := db.users.map
      (fun u => { u with django_password := f u.django_password }) }

theorem hooks_import_catchup_fails :
    importFromHooks ("_has_catchup_support") = .error "_has_catchup_support" := rfl

theorem hooks_import_config_fails :
    importFromHooks ("_get_plugin_config") = .error "_get_plugin_config" := rfl

theorem find?_username_map (f : String → String) (l : List User) (un : String) :
    (l.map (fun u => { u with django_password := f u.django_password })).find?
        (fun u => u.username == un)
      = (l.find? (fun u => u.username == un)).map
          (fun u => { u with django_password := f u.django_password }) := by
  induction l with
  | nil => rfl
  | cons v rest ih =>
    simp only [List.map_cons, List.find?_cons]
    cases hv : v.username == un with
    | true => simp [hv]
    | false => simp [hv, ih]

theorem userByName_setDjangoPasswords (f : String → String) (db : Db)
    (un : String) :
    userByName (setDjangoPasswords f db) un
      = (userByName db un).map
          (fun u => { u with django_password := f u.django_password }) := by
  unfold userByName setDjangoPasswords
  exact find?_username_map f db.users un

/-- Default plugin configuration row. -/
def cfg0 : PluginCfg := { catchup_url_template := "" }

/-- A time-zone database in which no zone name resolves. -/
def tz0 : TzDb := fun _ => none

/-- A store on which every step of `timeshift_proxy` up to the access-level
check succeeds: `john`'s side-channel password is `secret123`, provider id
`22371` resolves to channel 7, and the user's level suffices. -/
def dbC1 : Db :=
  { users := [{ username := "john", django_password := "dj", user_level := 0,
                custom_properties := some { xc_password := some "secret123" } }],
    channels := [{ id := 7, name := "ch7", user_level := 0, uuid := "uuid-7",
                   stream_ids := [1] }],
    streams := [{ id := 1,
                  custom_properties :=
                    some { stream_id := some (.pstr "22371"),
                           tv_archive := some (.pint 1) },
                  m3u_account := some { account_type := "XC" },
                  channel_ids := [7] }] }

/-- C1: every request to `timeshift_proxy` that passes authentication,
identifier resolution, and the access-level check reaches the statement
`from .hooks import _has_catchup_support`; neither `_has_catchup_support` nor
`_get_plugin_config` is defined in the hooks module, so the handler raises an
unhandled `ImportError` before the feature check completes, and the streaming
outcome is unreachable for every input (every path yields a forbidden,
not-found, or import-error result with zero outbound attempts). -/
theorem c1_import_error_unreachable :
    (hooksModuleNames.contains ("_has_catchup_support") = false
      ∧ hooksModuleNames.contains ("_get_plugin_config") = false)
    ∧ (∀ db cfg tzdb up rh un pw sid ts dur u ch st,
        _authenticate_user db un pw = some u →
        _find_channel_by_provider_stream_id db (rstripDotTs dur) = some (ch, st) →
        ¬ u.user_level < ch.user_level →
        timeshift_proxy db cfg tzdb up rh un pw sid ts dur
          = (.importError "_has_catchup_support", 0))
    ∧ (∀ db cfg tzdb up rh un pw sid ts dur stc ctc hsc,
        (timeshift_proxy db cfg tzdb up rh un pw sid ts dur).1
          ≠ .streaming stc ctc hsc) := by
  refine ⟨⟨by decide, by decide⟩, ?_, ?_⟩
  · intro db cfg tzdb up rh un pw sid ts dur u ch st hauth hfind hlvl
    simp only [timeshift_proxy, hauth, hfind, hooks_import_catchup_fails, if_neg hlvl]
  · intro db cfg tzdb up rh un pw sid ts dur stc ctc hsc
    cases hauth : _authenticate_user db un pw with
    | none => simp [timeshift_proxy, hauth]
    | some u =>
      cases hfind : _find_channel_by_provider_stream_id db (rstripDotTs dur) with
      | none => simp [timeshift_proxy, hauth, hfind]
      | some p =>
        obtain ⟨ch, st⟩ := p
        by_cases hlvl : u.user_level < ch.user_level
        · simp [timeshift_proxy, hauth, hfind, hlvl]
        · simp [timeshift_proxy, hauth, hfind, hlvl, hooks_import_catchup_fails]

theorem c1_witness :
    timeshift_proxy dbC1 cfg0 tz0 .timeout none ("john") ("secret123")
      ("155") ("2025-01-15:14-30") ("22371.ts")
      = (.importError "_has_catchup_support", 0) :=
  c1_import_error_unreachable.2.1 dbC1 cfg0 tz0 .timeout none
    ("john") ("secret123") ("155") ("2025-01-15:14-30") ("22371.ts")
    _ _ _ rfl rfl (by decide)

/-- Same store as `dbC1` except that the resolved stream carries
`tv_archive = 0` and no duration: the catchup feature is unsupported. -/
def dbC2 : Db :=
  { users := [{ username := "john", django_password := "dj", user_level := 0,
                custom_properties := some { xc_password := some "secret123" } }],
    channels := [{ id := 7, name := "ch7", user_level := 0, uuid := "uuid-7",
                   stream_ids := [1] }],
    streams := [{ id := 1,
                  custom_properties :=
                    some { stream_id := some (.pstr "22371"),
                           tv_archive := some (.pint 0) },
                  m3u_account := some { account_type := "XC" },
                  channel_ids := [7] }] }

/-- C2 (settled against `timeshift_proxy_full`, the handler with the two
hook-module helpers it imports modelled from the spec, since those helpers
are repository code not included under `src/`): for every authenticated,
resolved, and authorized request whose resolved stream's property bag
indicates no catchup support, the handler returns `BadRequest` with body
`Catchup/timeshift not supported for this channel` and makes zero outbound
HTTP attempts. -/
theorem c2_feature_check_badrequest :
    ∀ db cfg tzdb up rh un pw sid ts dur u ch st,
      _authenticate_user db un pw = some u →
      _find_channel_by_provider_stream_id db (rstripDotTs dur) = some (ch, st) →
      ¬ u.user_level < ch.user_level →
      (_has_catchup_support (st.custom_properties.getD {})).1 = false →
      timeshift_proxy_full db cfg tzdb up rh un pw sid ts dur
        = (.badRequest "Catchup/timeshift not supported for this channel", 0) := by
  intro db cfg tzdb up rh un pw sid ts dur u ch st hauth hfind hlvl hfeat
  simp only [timeshift_proxy_full, hauth, hfind, if_neg hlvl, hfeat, if_pos]

theorem c2_witness :
    timeshift_proxy_full dbC2 cfg0 tz0 .timeout none ("john")
      ("secret123") ("155") ("2025-01-15:14-30") ("22371.ts")
      = (.badRequest "Catchup/timeshift not supported for this channel", 0) :=
  c2_feature_check_badrequest dbC2 cfg0 tz0 .timeout none
    ("john") ("secret123") ("155") ("2025-01-15:14-30") ("22371.ts")
    _ _ _ rfl rfl (by decide) rfl

/-- A pre-install hooks state: nothing patched, no saved originals, one URL
pattern whose callback is the host's `stream_xc` and one unrelated pattern. -/
def hooksInit : HooksState :=
  { output_xc := .origXc, proxy_stream_xc := .origStreamXc,
    urlpatterns := [(0, .origStreamXc), (1, .origXc)],
    resolver_resolve := .origResolve,
    orig_xc := none, orig_stream_xc := none, orig_url_callbacks := [],
    orig_resolve := none }

set_option maxRecDepth 8192 in
/-- C3 counterexample: a second `install_hooks` after a successful install is
not a no-op.  After the first install the saved original for
`xc_get_live_streams` is the host function and the installed wrapper reaches
it in one delegation step, but after the second install the saved original
holds the first wrapper instead of the pre-install original, and the
installed wrapper never reaches the host original at all (self-delegation,
i.e. unbounded recursion in Python). -/
theorem c3_counterexample :
    (install_hooks hooksInit).orig_xc = some Fn.origXc
    ∧ (install_hooks (install_hooks hooksInit)).orig_xc ≠ some Fn.origXc
    ∧ (install_hooks (install_hooks hooksInit)).orig_xc = some Fn.patchedXc
    ∧ (install_hooks (install_hooks hooksInit)).orig_stream_xc
        = some Fn.patchedStreamXc
    ∧ delegationChain (install_hooks hooksInit) 2
        (install_hooks hooksInit).output_xc = some Fn.origXc
    ∧ delegationChain (install_hooks (install_hooks hooksInit)) 1000
        (install_hooks (install_hooks hooksInit)).output_xc = none := by decide

/-- C3 amended: `uninstall_hooks` with no prior install (all saved-original
references unset) is a no-op, and the `URLResolver.resolve` patch alone is
idempotent (a second `install_hooks` changes neither the resolver method nor
its saved original); but a second `install_hooks` re-wraps
`xc_get_live_streams` and `stream_xc`, leaving their saved "original
function" references holding the first wrappers rather than the pre-install
originals. -/
theorem c3_amended : ∀ s : HooksState,
    (s.orig_xc = none → s.orig_stream_xc = none → s.orig_resolve = none →
      uninstall_hooks s = s)
    ∧ (install_hooks (install_hooks s)).orig_resolve
        = (install_hooks s).orig_resolve
    ∧ (install_hooks (install_hooks s)).resolver_resolve
        = (install_hooks s).resolver_resolve
    ∧ (install_hooks (install_hooks s)).orig_xc = some Fn.patchedXc
    ∧ (install_hooks (install_hooks s)).orig_stream_xc
        = some Fn.patchedStreamXc := by
  intro s
  refine ⟨?_, ?_, ?_, ?_, ?_⟩
  · intro h1 h2 h3
    simp only [uninstall_hooks, _restore_xc_get_live_streams, h1,
      _restore_stream_xc, h2, _restore_url_resolver, h3]
  · cases h : s.orig_resolve with
    | none =>
      simp [install_hooks, _patch_xc_get_live_streams, _patch_stream_xc,
        _patch_url_resolver, h]
    | some f =>
      simp [install_hooks, _patch_xc_get_live_streams, _patch_stream_xc,
        _patch_url_resolver, h]
  · cases h : s.orig_resolve with
    | none =>
      simp [install_hooks, _patch_xc_get_live_streams, _patch_stream_xc,
        _patch_url_resolver, h]
    | some f =>
      simp [install_hooks, _patch_xc_get_live_streams, _patch_stream_xc,
        _patch_url_resolver, h]
  · cases h : s.orig_resolve with
    | none =>
      simp [install_hooks, _patch_xc_get_live_streams, _patch_stream_xc,
        _patch_url_resolver, h]
    | some f =>
      simp [install_hooks, _patch_xc_get_live_streams, _patch_stream_xc,
        _patch_url_resolver, h]
  · cases h : s.orig_resolve with
    | none =>
      simp [install_hooks, _patch_xc_get_live_streams, _patch_stream_xc,
        _patch_url_resolver, h]
    | some f =>
      simp [install_hooks, _patch_xc_get_live_streams, _patch_stream_xc,
        _patch_url_resolver, h]

theorem c3_witness :
    uninstall_hooks hooksInit = hooksInit
    ∧ (install_hooks (install_hooks hooksInit)).orig_xc = some Fn.patchedXc :=
  ⟨(c3_amended hooksInit).1 rfl rfl rfl, (c3_amended hooksInit).2.2.2.1⟩

/-- A store whose channel 7 has a first stream carrying a well-formed
`tv_archive` value but a malformed (non-numeric) `tv_archive_duration`. -/
def dbC4 : Db :=
  { channels := [{ id := 7, stream_ids := [1] }],
    streams := [{ id := 1,
                  custom_properties :=
                    some { tv_archive := some (.pstr "1"),
                           tv_archive_duration := some (.pstr "boom") },
                  channel_ids := [7] }] }

/-- C4 counterexample: a decoration step fails on this entry (the
`tv_archive_duration` value raises in `int(...)`, which is why the output has
no `tv_archive_duration` key), yet the entry is not left exactly as the
original function produced it — the `tv_archive` key written by the preceding
line survives the caught exception. -/
theorem c4_counterexample :
    patched_xc_get_live_streams dbC4 (.ok true) [{ stream_id := 7 }]
      = [{ stream_id := 7, tv_archive := some 1 }]
    ∧ ({ stream_id := 7, tv_archive := some 1 } : StreamEntry)
        ≠ { stream_id := 7 } := by
  exact ⟨by decide, by decide⟩

/-- C4 amended: per-entry failures are caught and decoration continues for
the remaining entries, and an entry is left exactly as produced when the
failing step precedes every assignment (missing channel, missing first
stream, malformed `tv_archive`); but when a later step fails the assignments
already executed persist — a malformed `tv_archive_duration` leaves the entry
with its `tv_archive` key already rewritten. -/
theorem c4_amended : ∀ (db : Db) (e : StreamEntry),
    (channelById db e.stream_id = none → decorateEntry db e = e)
    ∧ (∀ ch, channelById db e.stream_id = some ch →
        firstOrderedStream db ch = none → decorateEntry db e = e)
    ∧ (∀ ch st, channelById db e.stream_id = some ch →
        firstOrderedStream db ch = some st →
        pvalToInt ((st.custom_properties.getD {}).tv_archive.getD (.pint 0))
          = none →
        decorateEntry db e = e)
    ∧ (∀ ch st ta, channelById db e.stream_id = some ch →
        firstOrderedStream db ch = some st →
        pvalToInt ((st.custom_properties.getD {}).tv_archive.getD (.pint 0))
          = some ta →
        pvalToInt
            ((st.custom_properties.getD {}).tv_archive_duration.getD (.pint 0))
          = none →
        decorateEntry db e = { e with tv_archive := some ta })
    ∧ (∀ cfg l1 l2, _is_plugin_enabled cfg = true →
        patched_xc_get_live_streams db cfg (l1 ++ l2)
          = patched_xc_get_live_streams db cfg l1
            ++ patched_xc_get_live_streams db cfg l2) := by
  intro db e
  refine ⟨?_, ?_, ?_, ?_, ?_⟩
  · intro h; simp only [decorateEntry, h]
  · intro ch h1 h2; simp only [decorateEntry, h1, h2]
  · intro ch st h1 h2 h3; simp only [decorateEntry, h1, h2, h3]
  · intro ch st ta h1 h2 h3 h4; simp only [decorateEntry, h1, h2, h3, h4]
  · intro cfg l1 l2 hcfg
    simp [patched_xc_get_live_streams, hcfg]

theorem c4_witness :
    decorateEntry dbC4 { stream_id := 7 }
      = { stream_id := 7, tv_archive := some 1 } :=
  (c4_amended dbC4 { stream_id := 7 }).2.2.2.1
    { id := 7, name := "", user_level := 0, uuid := "", stream_ids := [1] }
    { id := 1,
      custom_properties :=
        some { stream_id := none, tv_archive := some (.pstr "1"),
               tv_archive_duration := some (.pstr "boom") },
      m3u_account := none, channel_ids := [7] }
    1 (by decide) (by decide) (by decide) (by decide)

/-- C5: whenever the path does not match the anchored timeshift pattern, or
the plugin's enabled flag is false, or reading the flag raised (fail-closed:
`_is_plugin_enabled` returns false on a read error), the patched
`URLResolver.resolve` returns exactly the original resolve's result for that
path (the embedding is pure, so there is no other effect). -/
theorem c5_passthrough :
    (∀ (R : Type) (orig : String → R) (cfg : ConfigRead) (path : String),
      (cfg = .err ∨ _is_plugin_enabled cfg = false ∨ timeshiftMatch path = none) →
      patched_resolve orig cfg path = .passthrough (orig path))
    ∧ _is_plugin_enabled .err = false := by
  constructor
  · intro R orig cfg path h
    unfold patched_resolve
    rcases h with h | h | h
    · subst h; simp [_is_plugin_enabled]
    · simp [h]
    · by_cases hb : (_is_plugin_enabled cfg
          && (pyStartsWith path ("/timeshift/") || pyStartsWith path ("timeshift/")))
          = true
      · simp [hb, h]
      · simp [hb]
  · rfl

theorem c5_witness :
    patched_resolve (fun s => s.length) ConfigRead.err
        ("/timeshift/john/secret123/155/2025-01-15:14-30/22371.ts")
      = .passthrough (("/timeshift/john/secret123/155/2025-01-15:14-30/22371.ts").length) :=
  c5_passthrough.1 Nat (fun s => s.length) ConfigRead.err
    ("/timeshift/john/secret123/155/2025-01-15:14-30/22371.ts") (Or.inl rfl)

/-- A store in which provider id `22371` resolves through an XC stream to
channel 5. -/
def dbC6 : Db :=
  { channels := [{ id := 5, name := "ch5", user_level := 0, uuid := "uuid-5",
                   stream_ids := [3] }],
    streams := [{ id := 3,
                  custom_properties := some { stream_id := some (.pstr "22371") },
                  m3u_account := some { account_type := "XC" },
                  channel_ids := [5] }] }

/-- C6: identifier resolution tries its branches in strict order with the
first match winning.  (1) When some XC-account stream's property-bag
`stream_id` equals the input string exactly and that stream has a first
associated channel, resolution returns that channel (and, in the provider-id
view helper, the `(Channel, Stream)` pair); (2) when the provider branch
yields no channel and the input parses as a base-10 integer, resolution is
the internal-id lookup — filtered by access level, and by enabled
profile-membership when the user has channel profiles, whenever the user's
level is below the unrestricted threshold 10, and unfiltered at level 10 or
above; (3) when the input parses as neither, resolution fails with no
further fallback. -/
theorem c6_resolution_order :
    (∀ db u cid st ch, findXcStreamByProviderId db cid = some st →
      firstChannelOf db st = some ch →
      resolveChannel db u cid = some ch
        ∧ _find_channel_by_provider_stream_id db cid = some (ch, st))
    ∧ (∀ db u cid n,
        (findXcStreamByProviderId db cid).bind (firstChannelOf db) = none →
        strToInt cid = some n →
        resolveChannel db u cid = internalChannelLookup db u n)
    ∧ (∀ db u cid,
        (findXcStreamByProviderId db cid).bind (firstChannelOf db) = none →
        strToInt cid = none → resolveChannel db u cid = none)
    ∧ (∀ db (u : User) n, 10 ≤ u.user_level →
        internalChannelLookup db u n = db.channels.find? (fun c => c.id == n))
    ∧ (∀ db (u : User) n, u.user_level < 10 → u.channel_profiles = [] →
        internalChannelLookup db u n
          = db.channels.find?
              (fun c => c.id == n && decide (c.user_level ≤ u.user_level)))
    ∧ (∀ db (u : User) n, u.user_level < 10 → u.channel_profiles ≠ [] →
        internalChannelLookup db u n
          = db.channels.find?
              (fun c => c.id == n && decide (c.user_level ≤ u.user_level)
                && hasEnabledMembership db u c)) := by
  refine ⟨?_, ?_, ?_, ?_, ?_, ?_⟩
  · intro db u cid st ch h1 h2
    constructor
    · simp only [resolveChannel, h1, Option.bind, h2]
    · simp only [_find_channel_by_provider_stream_id, h1, h2]
  · intro db u cid n h1 h2
    simp only [resolveChannel, h1, h2]
  · intro db u cid h1 h2
    simp only [resolveChannel, h1, h2]
  · intro db u n h
    have h10 : ¬ u.user_level < 10 := by omega
    simp only [internalChannelLookup, if_neg h10]
  · intro db u n h hcp
    simp [internalChannelLookup, h, hcp]
  · intro db u n h hcp
    cases hl : u.channel_profiles with
    | nil => exact absurd hl hcp
    | cons a l => simp [internalChannelLookup, h, hl]

theorem c6_witness :
    resolveChannel dbC6 { username := "x" } ("22371")
      = some { id := 5, name := "ch5", user_level := 0, uuid := "uuid-5",
               stream_ids := [3] }
    ∧ _find_channel_by_provider_stream_id dbC6 ("22371")
      = some ({ id := 5, name := "ch5", user_level := 0, uuid := "uuid-5",
                stream_ids := [3] },
              { id := 3,
                custom_properties := some { stream_id := some (.pstr "22371") },
                m3u_account := some { account_type := "XC" },
                channel_ids := [5] }) :=
  c6_resolution_order.1 dbC6 { username := "x" } ("22371") _ _ rfl rfl

/-- A store whose only user has the side-channel key present but holding the
empty string. -/
def dbC7 : Db :=
  { users := [{ username := "u", django_password := "d", user_level := 0,
                custom_properties := some { xc_password := some "" } }] }

/-- C7 counterexample: authentication fails for user `u` with supplied
password `""` although the user exists, `xc_password` is present in the
property bag, and the supplied password equals it — the Python truthiness
test `if not xc_password` rejects an empty configured credential, so "no
xc_password in its property bag" is not the exact failure condition. -/
theorem c7_counterexample :
    _authenticate_user dbC7 ("u") ("") = none
    ∧ userByName dbC7 ("u")
        = some { username := "u", django_password := "d", user_level := 0,
                 custom_properties := some { xc_password := some "" },
                 channel_profiles := [] }
    ∧ (some ("") : Option String) ≠ none := by
  refine ⟨by decide, by decide, by decide⟩

/-- C7 amended: authentication succeeds exactly when the user is found by
exact username, the stored `xc_password` equals the supplied password, and it
is non-empty (Python-falsy credentials count as not configured); the primary
(Django) password is never consulted — rewriting every user's
`django_password` changes nothing but the returned record's copy of that
field; and on any authentication failure `timeshift_proxy` answers
`Invalid credentials` with zero outbound attempts. -/
theorem auth_core_some_iff (v u : User) (pw xp : String) :
    (if xp == "" then none else if xp != pw then none else some v) = some u
      ↔ (v = u ∧ xp = pw ∧ pw ≠ "") := by
  by_cases he : xp = ""
  · subst he
    simp only [beq_self_eq_true, if_true]
    constructor
    · intro h; exact Option.noConfusion h
    · rintro ⟨_, hb, hne⟩
      exact absurd hb.symm hne
  · by_cases hp : xp = pw
    · subst hp
      simp [he]
    · simp [he, hp]

theorem c7_amended :
    (∀ db un pw u, _authenticate_user db un pw = some u ↔
      (userByName db un = some u
        ∧ u.custom_properties.bind (fun p => p.xc_password) = some pw
        ∧ pw ≠ ""))
    ∧ (∀ f db un pw,
        _authenticate_user (setDjangoPasswords f db) un pw
          = (_authenticate_user db un pw).map
              (fun u => { u with django_password := f u.django_password }))
    ∧ (∀ db cfg tzdb up rh un pw sid ts dur,
        _authenticate_user db un pw = none →
        timeshift_proxy db cfg tzdb up rh un pw sid ts dur
          = (.forbidden ("Invalid credentials"), 0)) := by
  refine ⟨?_, ?_, ?_⟩
  · intro db un pw u
    unfold _authenticate_user
    cases hu : userByName db un with
    | none => simp
    | some v =>
      cases hxc : v.custom_properties.bind (fun p => p.xc_password) with
      | none =>
        simp only [hxc]
        constructor
        · intro h; exact Option.noConfusion h
        · rintro ⟨hv, hb, _⟩
          injection hv with hv
          subst hv
          rw [hxc] at hb
          exact Option.noConfusion hb
      | some xp =>
        simp only [hxc]
        rw [auth_core_some_iff]
        constructor
        · rintro ⟨rfl, rfl, hne⟩
          exact ⟨rfl, hxc, hne⟩
        · rintro ⟨hv, hb, hne⟩
          injection hv with hv
          subst hv
          rw [hxc] at hb
          injection hb with hb
          exact ⟨rfl, hb, hne⟩
  · intro f db un pw
    unfold _authenticate_user
    rw [userByName_setDjangoPasswords]
    cases hu : userByName db un with
    | none => rfl
    | some v =>
      simp only [Option.map_some']
      cases hxc : v.custom_properties.bind (fun p => p.xc_password) with
      | none => simp [hxc]
      | some xp =>
        simp only [hxc]
        split_ifs <;> rfl
  · intro db cfg tzdb up rh un pw sid ts dur h
    simp only [timeshift_proxy, h]

theorem c7_witness :
    timeshift_proxy dbC7 cfg0 tz0 .timeout none ("u") ("wrong") ("155") ("t")
        ("22371.ts") = (.forbidden ("Invalid credentials"), 0) :=
  c7_amended.2.2 dbC7 cfg0 tz0 .timeout none ("u") ("wrong") ("155") ("t")
    ("22371.ts") (by decide)

/-- A store with a level-0 user whose `xc_password` is `p`, and a channel of
required level 5 reachable through provider id `22371` on an XC stream. -/
def dbC8 : Db :=
  { users := [{ username := "u", django_password := "", user_level := 0,
                custom_properties := some { xc_password := some "p" } }],
    channels := [{ id := 5, name := "ch5", user_level := 5, uuid := "uuid-5",
                   stream_ids := [3] }],
    streams := [{ id := 3,
                  custom_properties := some { stream_id := some (.pstr "22371") },
                  m3u_account := some { account_type := "XC" },
                  channel_ids := [5] }] }

/-- C8 counterexample: in the patched live-playback path, a user of level 0
denied a level-5 channel receives a 404 JSON response (`Not found`), not a
Forbidden response, so the claim's "denied with a Forbidden response ... in
both" fails on the patched path. -/
theorem c8_counterexample :
    patched_stream_xc dbC8 (.ok true) ("u") ("p") ("22371.ts")
      = .jsonError 404 ("Not found")
    ∧ HttpResp.jsonError 404 ("Not found") ≠ .forbidden ("Access denied")
    ∧ (404 : Nat) ≠ 403 := by
  refine ⟨by decide, by decide, by decide⟩

/-- C8 amended: access is denied exactly when the channel's required level
strictly exceeds the user's level, in both paths, but the denial responses
differ: `timeshift_proxy` answers `Forbidden` (`Access denied`), while the
patched live-playback path answers a 404 JSON response (`Not found`); in
both paths the request otherwise proceeds past the authorization step. -/
theorem c8_amended :
    (∀ db cfg tzdb up rh un pw sid ts dur u ch st,
      _authenticate_user db un pw = some u →
      _find_channel_by_provider_stream_id db (rstripDotTs dur) = some (ch, st) →
      (timeshift_proxy db cfg tzdb up rh un pw sid ts dur
          = (.forbidden ("Access denied"), 0)
        ↔ u.user_level < ch.user_level))
    ∧ (∀ db cfg un pw cid u ch,
      _is_plugin_enabled cfg = true →
      userByName db un = some u →
      u.custom_properties.bind (fun p => p.xc_password) = some pw →
      resolveChannel db u (pathStem cid) = some ch →
      patched_stream_xc db cfg un pw cid
        = (if u.user_level < ch.user_level then .jsonError 404 ("Not found")
           else .streamTs ch.uuid)) := by
  constructor
  · intro db cfg tzdb up rh un pw sid ts dur u ch st hauth hfind
    by_cases hlvl : u.user_level < ch.user_level
    · simp only [timeshift_proxy, hauth, hfind, if_pos hlvl]
      simp [hlvl]
    · simp only [timeshift_proxy, hauth, hfind, if_neg hlvl,
        hooks_import_catchup_fails]
      simp [hlvl]
  · intro db cfg un pw cid u ch hcfg hu hxc hres
    simp only [patched_stream_xc, hcfg, hu, hxc, hres, bne_self_eq_false,
      Bool.false_eq_true, if_false]
    simp

theorem c8_witness :
    timeshift_proxy dbC8 cfg0 tz0 .timeout none ("u") ("p") ("155") ("t")
        ("22371.ts") = (.forbidden ("Access denied"), 0) :=
  (c8_amended.1 dbC8 cfg0 tz0 .timeout none ("u") ("p") ("155") ("t")
      ("22371.ts")
      { username := "u", django_password := "", user_level := 0,
        custom_properties := some { xc_password := some "p" },
        channel_profiles := [] }
      { id := 5, name := "ch5", user_level := 5, uuid := "uuid-5",
        stream_ids := [3] }
      { id := 3,
        custom_properties := some { stream_id := some (.pstr "22371") },
        m3u_account := some { account_type := "XC" }, channel_ids := [5] }
      (by decide) (by decide)).mpr (by decide)

/-- Outcomes `_proxy_stream` can surface to the caller: a `BadRequest` or a
streaming response — never a propagated exception. -/
def isProxyOutcome : HttpResp → Bool
  | .badRequest _ => true
  | .streaming _ _ _ => true
  | _ => false

/-- C9: the proxy step makes exactly one outbound GET attempt per client
request whatever the outcome (no retry), maps any upstream status other than
200/206 to `BadRequest` carrying the status, converts timeouts and
connection errors (and any other request exception) to `BadRequest`, and
never lets the exception propagate: every result is a `BadRequest` or a
streaming response. -/
theorem c9_proxy_single_attempt :
    (∀ up rh url ua, (_proxy_stream up rh url ua).2 = 1)
    ∧ (∀ status ct cl cr ar bt rh url ua, status ≠ 200 → status ≠ 206 →
        _proxy_stream (.success status ct cl cr ar bt) rh url ua
          = (.badRequest ("Provider error: " ++ toString status), 1))
    ∧ (∀ rh url ua,
        _proxy_stream .timeout rh url ua = (.badRequest ("Provider timeout"), 1))
    ∧ (∀ m rh url ua, _proxy_stream (.connError m) rh url ua
        = (.badRequest ("Provider connection error"), 1))
    ∧ (∀ m rh url ua, _proxy_stream (.reqError m) rh url ua
        = (.badRequest ("Provider connection error"), 1))
    ∧ (∀ up rh url ua, isProxyOutcome (_proxy_stream up rh url ua).1 = true) := by
  refine ⟨?_, ?_, ?_, ?_, ?_, ?_⟩
  · intro up rh url ua
    cases up with
    | timeout => rfl
    | connError m => rfl
    | reqError m => rfl
    | success status ct cl cr ar bt =>
      simp only [_proxy_stream]
      split
      · rfl
      · rfl
  · intro status ct cl cr ar bt rh url ua h1 h2
    have hb : (status != 200 && status != 206) = true := by
      simp [bne_iff_ne, h1, h2]
    simp [_proxy_stream, hb]
  · intro rh url ua; rfl
  · intro m rh url ua; rfl
  · intro m rh url ua; rfl
  · intro up rh url ua
    cases up with
    | timeout => rfl
    | connError m => rfl
    | reqError m => rfl
    | success status ct cl cr ar bt =>
      simp only [_proxy_stream]
      split
      · rfl
      · rfl

theorem c9_witness :
    _proxy_stream (.success 404 none none none none none) none ("http://x")
        ("ua") = (.badRequest ("Provider error: " ++ toString 404), 1) :=
  c9_proxy_single_attempt.2.1 404 none none none none none none ("http://x")
    ("ua") (by decide) (by decide)

/-- C10: timestamp conversion is, in this embedding, a pure function of the
input pair (and the fixed zone database), hence deterministic; and for every
timestamp that does not parse as `YYYY-MM-DD:HH-MM` — and for every zone name
the database cannot resolve — it returns the input string unchanged. -/
theorem c10_timestamp_conversion :
    (∀ (tzdb : TzDb) (T Z r1 r2 : String),
      _convert_timestamp_to_local tzdb T Z = r1 →
      _convert_timestamp_to_local tzdb T Z = r2 → r1 = r2)
    ∧ (∀ (tzdb : TzDb) (T Z : String), parseTimestamp T = none →
        _convert_timestamp_to_local tzdb T Z = T)
    ∧ (∀ (tzdb : TzDb) (T Z : String), tzdb Z = none →
        _convert_timestamp_to_local tzdb T Z = T) := by
  refine ⟨?_, ?_, ?_⟩
  · intro tzdb T Z r1 r2 h1 h2
    exact h1.symm.trans h2
  · intro tzdb T Z h
    simp only [_convert_timestamp_to_local, h]
  · intro tzdb T Z h
    cases hp : parseTimestamp T with
    | none => simp only [_convert_timestamp_to_local, hp]
    | some dt => simp only [_convert_timestamp_to_local, hp, h]

theorem c10_witness :
    _convert_timestamp_to_local tz0 ("not a timestamp") ("Europe/Brussels")
      = ("not a timestamp") :=
  c10_timestamp_conversion.2.1 tz0 ("not a timestamp") ("Europe/Brussels")
    (by decide)

end Timeshift
